import Mathlib

/- Shallow embedding of `lib/topology_docker/platform.py` from the
topology_docker repository: the Docker platform plugin that builds and
tears down container-based network topologies.

Modelling conventions: Python dicts become insertion-ordered association
lists (`dictGet?` / `dictSet`); external side effects (docker client calls,
subprocess `check_call`, pexpect session steps) become explicit effect
traces; a raised Python exception becomes `Except.error` carrying the
message. -/

/-- Port status strings stored in `DockerNode._port_status`. The source
uses the strings `'down'` (the spec's `unbound`), `'linked'`, and `'up'`
(the spec's `standalone`). -/
inductive PortStatus
  | down
  | linked
  | up
deriving DecidableEq, Repr

/-- Python dict lookup `d[k]` on an insertion-ordered association list. -/
def dictGet? {α : Type} (d : List (String × α)) (k : String) : Option α :=
  match d with
  | [] => none
  | (k2, v2) :: rest => if k2 = k then some v2 else dictGet? rest k

/-- Python dict assignment `d[k] = v`: replaces the existing entry in
place, or appends a new entry at the end. -/
def dictSet {α : Type} (d : List (String × α)) (k : String) (v : α) :
    List (String × α) :=
  match d with
  | [] => [(k, v)]
  | (k2, v2) :: rest =>
    if k2 = k then (k, v) :: rest else (k2, v2) :: dictSet rest k v

/-- Which subclass `DockerPlatform.add_node` instantiates:
`DockerSwitch` or `DockerHost`. -/
inductive NodeKind
  | switch
  | host
deriving DecidableEq, Repr

/-- The container-creation request issued by `DockerNode.__init__` through
`client.create_container(...)` together with its `create_host_config`
settings. -/
structure CreateContainerRequest where
  image : String
  command : String
  name : String
  detach : Bool
  tty : Bool
  privileged : Bool
  network_mode : String
deriving DecidableEq, Repr

/-- State of a `DockerNode` (also of the subclasses `DockerSwitch` and
`DockerHost`, recorded in `kind`): the container parameters and the
`_port_status` dict. -/
structure DockerNode where
  name : String
  image : String
  command : String
  container_id : String
  kind : NodeKind
  port_status : List (String × PortStatus)
deriving DecidableEq, Repr

/-- External side effects issued during node construction and start. -/
inductive Effect
  | createContainer (req : CreateContainerRequest)
  | startContainer (cid : String)
  | checkCall (cmd : String)
  | spawnShell (cmd : String)
deriving DecidableEq, Repr

/-- Source `DockerNode.add_port`: the single assignment
`self._port_status[port.identifier] = 'down'` (no duplicate check). -/
def DockerNode.add_port (n : DockerNode) (port : String) : DockerNode :=
  { n with port_status := dictSet n.port_status port PortStatus.down }

/-- Source `DockerNode.add_link`: the single assignment
`self._port_status[port.identifier] = 'linked'` (no status check). -/
def DockerNode.add_link (n : DockerNode) (port : String) : DockerNode :=
  { n with port_status := dictSet n.port_status port PortStatus.linked }

/-- The `check_call` command issued by `create_unlinked_ports` for one
still-down port. -/
def tuntap_command (name port : String) : String :=
  "docker exec " ++ name ++ " ip tuntap add dev " ++ port ++ " mode tap"

/-- One pass over `_port_status.items()` in `create_unlinked_ports`: every
`'down'` entry gets a tuntap command and is set to `'up'`; all other
entries are untouched. Returns the updated entries and the commands run. -/
def createUnlinkedAux (name : String) :
    List (String × PortStatus) → List (String × PortStatus) × List String
  | [] => ([], [])
  | (p, s) :: rest =>
    let r := createUnlinkedAux name rest
    if s = PortStatus.down then
      ((p, PortStatus.up) :: r.1, tuntap_command name p :: r.2)
    else
      ((p, s) :: r.1, r.2)

/-- Source `DockerNode.create_unlinked_ports`. -/
def DockerNode.create_unlinked_ports (n : DockerNode) :
    DockerNode × List String :=
  let r := createUnlinkedAux n.name n.port_status
  ({ n with port_status := r.1 }, r.2)

/-- One step of a pexpect interactive-session round trip. -/
inductive SessionStep
  | sendline (text : String)
  | sleepMs (ms : Nat)
  | expectPattern (pat : String)
deriving DecidableEq, Repr

/-- Source `DockerNode.bash`: `self._bash.sendline(command)`, then the
unconditional `time.sleep(0.2)` (200 ms), then `self._bash.expect('.*#')`
with pexpect's default timeout. -/
def DockerNode.bash_steps (command : String) : List SessionStep :=
  [SessionStep.sendline command, SessionStep.sleepMs 200,
   SessionStep.expectPattern ".*#"]

/-- Source `DockerSwitch.vtysh`: same shape as `DockerNode.bash` on the
vtysh session. -/
def DockerSwitch.vtysh_steps (command : String) : List SessionStep :=
  [SessionStep.sendline command, SessionStep.sleepMs 200,
   SessionStep.expectPattern ".*#"]

/-- State of a `DockerPlatform`: the `nmlnode_node_map` dict from node
identifier to node. -/
structure DockerPlatform where
  nmlnode_node_map : List (String × DockerNode)
deriving DecidableEq, Repr

/-- The NML node argument of `add_node`: its identifier plus the two
metadata entries the code reads, `metadata.get('type', 'switch')` and
`metadata.get('image', 'ubuntu')`. -/
structure NmlNode where
  identifier : String
  metadata_type : Option String
  metadata_image : Option String
deriving DecidableEq, Repr

/-- Source `DockerNode.__init__` (plus the extra vtysh spawn from
`DockerSwitch.__init__` when `kind` is `switch`): issues the
container-creation request (detached, tty, privileged, network mode
`'none'`), spawns the shell sessions, and returns the fresh node state
with an empty `_port_status`. `cid` is the container id assigned by the
docker daemon. -/
def dockerNodeInit (name image command cid : String) (kind : NodeKind) :
    DockerNode × List Effect :=
  let req : CreateContainerRequest :=
    { image := image, command := command, name := name, detach := true,
      tty := true, privileged := true, network_mode := "none" }
  let fx := [Effect.createContainer req,
             Effect.spawnShell ("docker exec -i -t " ++ name ++ " bash")]
  let fx2 := if kind = NodeKind.switch then
      fx ++ [Effect.spawnShell ("docker exec -i -t " ++ name ++ " vtysh")]
    else fx
  ({ name := name, image := image, command := command, container_id := cid,
     kind := kind, port_status := [] }, fx2)

/-- The `check_call` commands of `DockerNode._create_netns`, given the pid
reported by `inspect_container`. -/
def netns_commands (pid : Nat) (name : String) : List String :=
  ["mkdir -p /var/run/netns",
   "ln -s /proc/" ++ toString pid ++ "/ns/net /var/run/netns/" ++ name]

/-- Source `DockerNode.start`: `client.start` on the container, then
`_create_netns`. -/
def DockerNode.start_effects (n : DockerNode) (pid : Nat) : List Effect :=
  Effect.startContainer n.container_id ::
    (netns_commands pid n.name).map Effect.checkCall

/-- Source `DockerPlatform.add_node`: kind dispatch on
`metadata.get('type', 'switch')` with default image `'ubuntu'`, node
construction and start, then the registry update
`self.nmlnode_node_map[node.identifier] = enode`. An unsupported type
raises `Exception('Unsupported type ...')` before any container is
created: the effect trace is empty and the registry is untouched.
`cid` and `pid` are the docker daemon's responses. -/
def DockerPlatform.add_node (pf : DockerPlatform) (node : NmlNode)
    (cid : String) (pid : Nat) :
    Except String (DockerPlatform × DockerNode) × List Effect :=
  let node_type := node.metadata_type.getD "switch"
  let image := node.metadata_image.getD "ubuntu"
  if node_type = "switch" then
    let r := dockerNodeInit node.identifier image "bash" cid NodeKind.switch
    let m := dictSet pf.nmlnode_node_map node.identifier r.1
    (Except.ok ({ nmlnode_node_map := m }, r.1),
      r.2 ++ r.1.start_effects pid)
  else if node_type = "host" then
    let r := dockerNodeInit node.identifier image "bash" cid NodeKind.host
    let m := dictSet pf.nmlnode_node_map node.identifier r.1
    (Except.ok ({ nmlnode_node_map := m }, r.1),
      r.2 ++ r.1.start_effects pid)
  else
    (Except.error ("Unsupported type " ++ node_type), [])

/-- Source `DockerPlatform.add_biport`: registry lookup followed by
`enode.add_port(biport)`; a missing identifier raises `KeyError`. -/
def DockerPlatform.add_biport (pf : DockerPlatform) (node_id port : String) :
    Except String DockerPlatform :=
  match dictGet? pf.nmlnode_node_map node_id with
  | none => Except.error ("KeyError: " ++ node_id)
  | some enode =>
    let m := dictSet pf.nmlnode_node_map node_id (enode.add_port port)
    Except.ok { nmlnode_node_map := m }

/-- The five `check_call` commands issued by `add_bilink`: veth-pair
creation, the two namespace moves and the two link-up commands. -/
def ip_link_commands (intf_a intf_b netns_a netns_b : String) : List String :=
  ["ip link add " ++ intf_a ++ " type veth peer name " ++ intf_b,
   "ip link set " ++ intf_a ++ " netns " ++ netns_a,
   "ip netns exec " ++ netns_a ++ " ip link set dev " ++ intf_a ++ " up",
   "ip link set " ++ intf_b ++ " netns " ++ netns_b,
   "ip netns exec " ++ netns_b ++ " ip link set dev " ++ intf_b ++ " up"]

/-- Source `DockerPlatform.add_bilink`: looks up both endpoint nodes (a
missing identifier raises `KeyError`), runs the five `ip` commands, then
calls `add_link` on both endpoint nodes. The two Python node objects
alias exactly when the identifiers coincide, hence the second update
re-reads the map after the first. Each endpoint is a
(node identifier, port identifier) pair. -/
def DockerPlatform.add_bilink (pf : DockerPlatform)
    (nodeport_a nodeport_b : String × String) :
    Except String (DockerPlatform × List String) :=
  match dictGet? pf.nmlnode_node_map nodeport_a.1 with
  | none => Except.error ("KeyError: " ++ nodeport_a.1)
  | some enode_a =>
    match dictGet? pf.nmlnode_node_map nodeport_b.1 with
    | none => Except.error ("KeyError: " ++ nodeport_b.1)
    | some enode_b =>
      let cmds := ip_link_commands nodeport_a.2 nodeport_b.2
        enode_a.name enode_b.name
      let m1 := dictSet pf.nmlnode_node_map nodeport_a.1
        (enode_a.add_link nodeport_a.2)
      let enode_b2 := (dictGet? m1 nodeport_b.1).getD enode_b
      let m2 := dictSet m1 nodeport_b.1 (enode_b2.add_link nodeport_b.2)
      Except.ok ({ nmlnode_node_map := m2 }, cmds)

/-- Helper for `post_build`: `create_unlinked_ports` on every registry
entry in order, collecting the commands run. -/
def postBuildAux :
    List (String × DockerNode) → List (String × DockerNode) × List String
  | [] => ([], [])
  | (k, n) :: rest =>
    let rn := n.create_unlinked_ports
    let rr := postBuildAux rest
    ((k, rn.1) :: rr.1, rn.2 ++ rr.2)

/-- Source `DockerPlatform.post_build`: calls `create_unlinked_ports` on
every node in the registry. -/
def DockerPlatform.post_build (pf : DockerPlatform) :
    DockerPlatform × List String :=
  let r := postBuildAux pf.nmlnode_node_map
  ({ nmlnode_node_map := r.1 }, r.2)

/-- The external resources teardown touches: the existing containers (by
container id) and the host-visible network namespace entries (by name). -/
structure World where
  containers : List String
  netns : List String
deriving DecidableEq, Repr

/-- The four sub-steps of `DockerNode.stop`, in source order. -/
inductive TeardownStep
  | stopContainer
  | waitContainer
  | removeContainer
  | removeNetns
deriving DecidableEq, Repr

/-- Behaviour of `client.stop`: raises a 404 `APIError` when the container
does not exist. -/
def client_stop (w : World) (cid : String) : Except String World :=
  if cid ∈ w.containers then Except.ok w
  else Except.error ("APIError: No such container: " ++ cid)

/-- Behaviour of `client.wait`: raises when the container does not
exist. -/
def client_wait (w : World) (cid : String) : Except String World :=
  if cid ∈ w.containers then Except.ok w
  else Except.error ("APIError: No such container: " ++ cid)

/-- Behaviour of `client.remove_container`: deletes the container; raises
when it does not exist. -/
def client_remove_container (w : World) (cid : String) : Except String World :=
  if cid ∈ w.containers then
    Except.ok { w with containers := w.containers.erase cid }
  else Except.error ("APIError: No such container: " ++ cid)

/-- Behaviour of `check_call('ip netns del <name>')`: `ip netns del` on an
absent entry exits nonzero, so `check_call` raises `CalledProcessError`;
on a present entry it removes it. -/
def ip_netns_del (w : World) (name : String) : Except String World :=
  if name ∈ w.netns then Except.ok { w with netns := w.netns.erase name }
  else Except.error ("CalledProcessError: ip netns del " ++ name)

/-- Source `DockerNode.stop`: the four teardown calls run strictly in
sequence with no exception handling, so the first failure aborts the
method and propagates. The result records the outcome and which sub-steps
were reached. -/
def DockerNode.stop (n : DockerNode) (w : World) :
    Except String World × List TeardownStep :=
  match client_stop w n.container_id with
  | Except.error e => (Except.error e, [TeardownStep.stopContainer])
  | Except.ok w1 =>
    match client_wait w1 n.container_id with
    | Except.error e =>
      (Except.error e, [TeardownStep.stopContainer, TeardownStep.waitContainer])
    | Except.ok w2 =>
      match client_remove_container w2 n.container_id with
      | Except.error e =>
        (Except.error e, [TeardownStep.stopContainer,
          TeardownStep.waitContainer, TeardownStep.removeContainer])
      | Except.ok w3 =>
        match ip_netns_del w3 n.name with
        | Except.error e =>
          (Except.error e, [TeardownStep.stopContainer,
            TeardownStep.waitContainer, TeardownStep.removeContainer,
            TeardownStep.removeNetns])
        | Except.ok w4 =>
          (Except.ok w4, [TeardownStep.stopContainer,
            TeardownStep.waitContainer, TeardownStep.removeContainer,
            TeardownStep.removeNetns])

/-- Helper for `destroy`: `stop` on every registry node in order; an
exception raised by one node's `stop` propagates out of the `for` loop
and aborts it. -/
def destroyAux : World → List (String × DockerNode) → Except String World
  | w, [] => Except.ok w
  | w, (_, n) :: rest =>
    match (n.stop w).1 with
    | Except.error e => Except.error e
    | Except.ok w2 => destroyAux w2 rest

/-- Source `DockerPlatform.destroy`: `enode.stop()` for every node in the
registry. The registry itself is never cleared. -/
def DockerPlatform.destroy (pf : DockerPlatform) (w : World) :
    Except String World :=
  destroyAux w pf.nmlnode_node_map

/-- Interleavable port operations on one node, for the port state
machine of the Port State Tracker. -/
inductive PortOp
  | addPort (p : String)
  | addLink (p : String)
  | createUnlinked
deriving DecidableEq, Repr

/-- One port operation applied to a node. -/
def stepOp (n : DockerNode) : PortOp → DockerNode
  | PortOp.addPort p => n.add_port p
  | PortOp.addLink p => n.add_link p
  | PortOp.createUnlinked => (n.create_unlinked_ports).1

/-- A sequence of port operations applied to a node. -/
def runOps (n : DockerNode) : List PortOp → DockerNode
  | [] => n
  | op :: rest => runOps (stepOp n op) rest

/-- Preconditions under which the orchestrator is meant to invoke the port
operations: `add_port` only registers a fresh (or still-down) port name,
`add_link` (the spec's `markLinked`) only fires on a currently-down port,
finalization is unconditional. -/
def validOpB (n : DockerNode) : PortOp → Bool
  | PortOp.addPort p =>
      decide (dictGet? n.port_status p = none) ||
      decide (dictGet? n.port_status p = some PortStatus.down)
  | PortOp.addLink p => decide (dictGet? n.port_status p = some PortStatus.down)
  | PortOp.createUnlinked => true

/-- A whole operation sequence respects the preconditions along its run. -/
def validFromB (n : DockerNode) : List PortOp → Bool
  | [] => true
  | op :: rest => validOpB n op && validFromB (stepOp n op) rest

/-- The terminal statuses: `'linked'` and `'up'` (the spec's linked and
standalone). -/
def terminalB : PortStatus → Bool
  | PortStatus.down => false
  | PortStatus.linked => true
  | PortStatus.up => true

/-- Concrete node fixture: name `"A"`, container id `"c1"`, no ports. -/
def nodeA : DockerNode :=
  { name := "A", image := "ubuntu", command := "bash", container_id := "c1",
    kind := NodeKind.switch, port_status := [] }

/-- Fixture: `nodeA` with port `"p"` already `'linked'`. -/
def nodeA_linked_p : DockerNode :=
  { nodeA with port_status := [("p", PortStatus.linked)] }

/-- Fixture: `nodeA` with port `"p"` still `'down'`. -/
def nodeA_down_p : DockerNode :=
  { nodeA with port_status := [("p", PortStatus.down)] }

/-- Fixture: a second node `"B"`, container id `"c2"`, port `"q"` down. -/
def nodeB_down_q : DockerNode :=
  { name := "B", image := "ubuntu", command := "bash", container_id := "c2",
    kind := NodeKind.host, port_status := [("q", PortStatus.down)] }

/-- Fixture: one-node platform holding `nodeA_down_p` under `"A"`. -/
def pfA : DockerPlatform := { nmlnode_node_map := [("A", nodeA_down_p)] }

/-- Fixture: two-node platform holding `"A"` and `"B"`. -/
def pfAB : DockerPlatform :=
  { nmlnode_node_map := [("A", nodeA_down_p), ("B", nodeB_down_q)] }

/-- Fixture: an NML node with no `type` metadata (defaults to switch). -/
def nmlDefault : NmlNode :=
  { identifier := "n1", metadata_type := none, metadata_image := none }

/-- Fixture: an NML node whose `type` metadata is the unsupported string
`"router"`. -/
def nmlRouter : NmlNode :=
  { identifier := "n2", metadata_type := some "router",
    metadata_image := none }

/-- Fixture world containing container `"c1"` and netns entry `"A"`. -/
def worldA : World := { containers := ["c1"], netns := ["A"] }

/-- Fixture world with nothing left in it. -/
def worldEmpty : World := { containers := [], netns := [] }

/-- Fixture world for the duplicate-identifier scenario: two containers
and the shared netns name `"n1"`. -/
def worldDup : World := { containers := ["c1", "c2"], netns := ["n1"] }

/-- Fixture: the container-creation request `add_node` issues for
`nmlDefault`. -/
def reqDefault : CreateContainerRequest :=
  { image := "ubuntu", command := "bash", name := "n1", detach := true,
    tty := true, privileged := true, network_mode := "none" }

/-- The node value `add_node` constructs when the spec's kind resolves to
switch (helper for stating `add_node` results). -/
def addNodeSwitchNode (node : NmlNode) (cid : String) : DockerNode :=
  (dockerNodeInit node.identifier (node.metadata_image.getD "ubuntu")
    "bash" cid NodeKind.switch).1

/-- The effect trace `add_node` produces when the spec's kind resolves to
switch. -/
def addNodeSwitchTrace (node : NmlNode) (cid : String) (pid : Nat) :
    List Effect :=
  (dockerNodeInit node.identifier (node.metadata_image.getD "ubuntu")
    "bash" cid NodeKind.switch).2 ++
    (addNodeSwitchNode node cid).start_effects pid

/-- The registry state after `add_node` when the spec's kind resolves to
switch. -/
def addNodeSwitchPf (pf : DockerPlatform) (node : NmlNode)
    (cid : String) : DockerPlatform :=
  { nmlnode_node_map := dictSet pf.nmlnode_node_map node.identifier
      (addNodeSwitchNode node cid) }

/-- The full result of `add_node` when the spec's kind resolves to
switch. -/
def addNodeSwitchResult (pf : DockerPlatform) (node : NmlNode)
    (cid : String) (pid : Nat) :
    Except String (DockerPlatform × DockerNode) × List Effect :=
  let m := dictSet pf.nmlnode_node_map node.identifier
    (addNodeSwitchNode node cid)
  (Except.ok ({ nmlnode_node_map := m }, addNodeSwitchNode node cid),
    addNodeSwitchTrace node cid pid)

/-- Looking up the key just written by `dictSet` yields the new value. -/
theorem dictGet_dictSet_self {α : Type} (d : List (String × α)) (k : String)
    (v : α) : dictGet? (dictSet d k v) k = some v := by
  induction d with
  | nil => simp [dictSet, dictGet?]
  | cons hd tl ih =>
    obtain ⟨k2, v2⟩ := hd
    by_cases h : k2 = k
    · simp [dictSet, dictGet?, h]
    · simp [dictSet, dictGet?, h, ih]

/-- Looking up any other key is unaffected by `dictSet`. -/
theorem dictGet_dictSet_ne {α : Type} (d : List (String × α)) (k kq : String)
    (v : α) (h : kq ≠ k) :
    dictGet? (dictSet d k v) kq = dictGet? d kq := by
  have hks : ¬ k = kq := fun hk => h hk.symm
  induction d with
  | nil => simp [dictSet, dictGet?, hks]
  | cons hd tl ih =>
    obtain ⟨k2, v2⟩ := hd
    by_cases h2 : k2 = k
    · subst h2
      simp [dictSet, dictGet?, hks]
    · by_cases h3 : k2 = kq <;> simp [dictSet, dictGet?, h, hks, h2, h3, ih]

/-- Entry-wise effect of the `create_unlinked_ports` pass on the port
dict: a `'down'` entry becomes `'up'`, anything else is unchanged. -/
theorem createUnlinkedAux_get (name : String)
    (l : List (String × PortStatus)) (p : String) :
    dictGet? (createUnlinkedAux name l).1 p =
      (dictGet? l p).map
        (fun s => if s = PortStatus.down then PortStatus.up else s) := by
  induction l with
  | nil => rfl
  | cons hd tl ih =>
    obtain ⟨q, s⟩ := hd
    by_cases hq : q = p
    · by_cases hs : s = PortStatus.down <;>
        simp [createUnlinkedAux, dictGet?, hq, hs]
    · by_cases hs : s = PortStatus.down <;>
        simp [createUnlinkedAux, dictGet?, hq, hs, ih]

/-- The commands emitted by the `create_unlinked_ports` pass: exactly one
tuntap command, named after the port, per `'down'` entry, in order. -/
theorem createUnlinkedAux_cmds (name : String)
    (l : List (String × PortStatus)) :
    (createUnlinkedAux name l).2 =
      (l.filter (fun pv => decide (pv.2 = PortStatus.down))).map
        (fun pv => tuntap_command name pv.1) := by
  induction l with
  | nil => rfl
  | cons hd tl ih =>
    obtain ⟨q, s⟩ := hd
    by_cases hs : s = PortStatus.down <;>
      simp [createUnlinkedAux, hs, ih, List.filter_cons]

/-- When the container exists and the netns entry exists, `stop` runs all
four sub-steps and succeeds. -/
theorem stop_ok (n : DockerNode) (w : World)
    (hc : n.container_id ∈ w.containers) (hn : n.name ∈ w.netns) :
    n.stop w =
      (Except.ok { containers := w.containers.erase n.container_id,
                   netns := w.netns.erase n.name },
       [TeardownStep.stopContainer, TeardownStep.waitContainer,
        TeardownStep.removeContainer, TeardownStep.removeNetns]) := by
  simp [DockerNode.stop, client_stop, client_wait, client_remove_container,
    ip_netns_del, hc, hn]

/-- When the container does not exist, `stop` fails at the very first
sub-step and the remaining three are never attempted. -/
theorem stop_no_container (n : DockerNode) (w : World)
    (hc : n.container_id ∉ w.containers) :
    n.stop w =
      (Except.error ("APIError: No such container: " ++ n.container_id),
       [TeardownStep.stopContainer]) := by
  simp [DockerNode.stop, client_stop, hc]

/-- When the container exists but the netns entry does not, `stop` fails
at the fourth sub-step and the failure propagates. -/
theorem stop_no_netns (n : DockerNode) (w : World)
    (hc : n.container_id ∈ w.containers) (hn : n.name ∉ w.netns) :
    n.stop w =
      (Except.error ("CalledProcessError: ip netns del " ++ n.name),
       [TeardownStep.stopContainer, TeardownStep.waitContainer,
        TeardownStep.removeContainer, TeardownStep.removeNetns]) := by
  simp [DockerNode.stop, client_stop, client_wait, client_remove_container,
    ip_netns_del, hc, hn]

/-- Running a concatenation of operation lists runs them in sequence. -/
theorem runOps_append (n : DockerNode) (l1 l2 : List PortOp) :
    runOps n (l1 ++ l2) = runOps (runOps n l1) l2 := by
  induction l1 generalizing n with
  | nil => rfl
  | cons op rest ih => simpa [runOps] using ih (stepOp n op)

/-- Validity of a concatenated run gives validity of the suffix from the
intermediate state. -/
theorem validFromB_append (n : DockerNode) (l1 l2 : List PortOp)
    (h : validFromB n (l1 ++ l2) = true) :
    validFromB (runOps n l1) l2 = true := by
  induction l1 generalizing n with
  | nil => exact h
  | cons op rest ih =>
    have h2 : validOpB n op = true ∧ validFromB (stepOp n op) (rest ++ l2) = true := by
      simpa [validFromB, Bool.and_eq_true] using h
    exact ih (stepOp n op) h2.2

/-- A single valid operation never moves a port that is already in a
terminal status. -/
theorem stepOp_preserves_terminal (n : DockerNode) (op : PortOp) (p : String)
    (s : PortStatus) (hv : validOpB n op = true) (ht : terminalB s = true)
    (hs : dictGet? n.port_status p = some s) :
    dictGet? (stepOp n op).port_status p = some s := by
  have hsd : s ≠ PortStatus.down := by
    cases s <;> simp_all [terminalB]
  cases op with
  | addPort q =>
    by_cases hq : p = q
    · subst hq
      have hd : dictGet? n.port_status p = none ∨
          dictGet? n.port_status p = some PortStatus.down := by
        simpa [validOpB, Bool.or_eq_true] using hv
      rcases hd with hd | hd <;> rw [hs] at hd
      · cases hd
      · exact absurd (Option.some.inj hd) hsd
    · simpa [stepOp, DockerNode.add_port,
        dictGet_dictSet_ne n.port_status q p PortStatus.down hq] using hs
  | addLink q =>
    by_cases hq : p = q
    · subst hq
      have hd : dictGet? n.port_status p = some PortStatus.down := by
        simpa [validOpB] using hv
      rw [hs] at hd
      exact absurd (Option.some.inj hd) hsd
    · simpa [stepOp, DockerNode.add_link,
        dictGet_dictSet_ne n.port_status q p PortStatus.linked hq] using hs
  | createUnlinked =>
    simp [stepOp, DockerNode.create_unlinked_ports, createUnlinkedAux_get,
      hs, hsd]

/-- A valid run never moves a port that is already in a terminal
status. -/
theorem runOps_preserves_terminal (l : List PortOp) (n : DockerNode)
    (p : String) (s : PortStatus) (hv : validFromB n l = true)
    (ht : terminalB s = true) (hs : dictGet? n.port_status p = some s) :
    dictGet? (runOps n l).port_status p = some s := by
  induction l generalizing n with
  | nil => exact hs
  | cons op rest ih =>
    have h2 : validOpB n op = true ∧ validFromB (stepOp n op) rest = true := by
      simpa [validFromB, Bool.and_eq_true] using hv
    exact ih (stepOp n op) h2.2
      (stepOp_preserves_terminal n op p s h2.1 ht hs)

/-- C3: for every node, `post_build`'s per-node finalization
`create_unlinked_ports` emits exactly one tuntap interface-creation
command, named after the port, for each port whose status is still
`'down'` (the spec's unbound) at that moment, emits no command for any
other port (in particular `'linked'` ones), and moves exactly the
`'down'` ports to `'up'` (the spec's standalone), leaving every other
port status unchanged. -/
theorem C3_create_unlinked_ports_correct (n : DockerNode) :
    (n.create_unlinked_ports).2 =
      (n.port_status.filter (fun pv => decide (pv.2 = PortStatus.down))).map
        (fun pv => tuntap_command n.name pv.1) ∧
    ∀ p, dictGet? (n.create_unlinked_ports).1.port_status p =
      (dictGet? n.port_status p).map
        (fun s => if s = PortStatus.down then PortStatus.up else s) := by
  constructor
  · simpa [DockerNode.create_unlinked_ports] using
      createUnlinkedAux_cmds n.name n.port_status
  · intro p
    simpa [DockerNode.create_unlinked_ports] using
      createUnlinkedAux_get n.name n.port_status p

/-- C8 counterexample: registering port `"p"` again on a node where `"p"`
is already `'linked'` does not fail with `DuplicatePortError` and does not
leave the existing port's status unchanged: `add_port` silently resets it
to `'down'`. -/
theorem C8_counterexample :
    dictGet? nodeA_linked_p.port_status "p" = some PortStatus.linked ∧
    (nodeA_linked_p.add_port "p").port_status = [("p", PortStatus.down)] := by
  constructor <;> rfl

/-- C8 (amended): `add_port` registers the port with status `'down'` (the
spec's unbound); registering a name that already exists does not fail —
it silently resets that port's status to `'down'` — while every other
port's status is unchanged. -/
theorem C8_add_port_always_down (n : DockerNode) (p q : String) :
    dictGet? (n.add_port p).port_status q =
      if q = p then some PortStatus.down else dictGet? n.port_status q := by
  by_cases h : q = p
  · subst h
    simp [DockerNode.add_port, dictGet_dictSet_self]
  · simp [DockerNode.add_port,
      dictGet_dictSet_ne n.port_status p q PortStatus.down h, h]

/-- C9: the code at any session round trip: both `bash` and `vtysh`
contain the unconditional fixed 200 ms delay (`time.sleep(0.2)`) before
the prompt wait, contradicting the claim; the subsequent `expect('.*#')`
relies on pexpect's default timeout, and no `SessionTimeoutError` exists
in the code. -/
theorem C9_fixed_delay_present (command : String) :
    SessionStep.sleepMs 200 ∈ DockerNode.bash_steps command ∧
    SessionStep.sleepMs 200 ∈ DockerSwitch.vtysh_steps command := by
  constructor <;> simp [DockerNode.bash_steps, DockerSwitch.vtysh_steps]

/-- C2 counterexample: the interleaving addPort p, addLink p, addPort p is
accepted by the code and moves port `"p"` out of the terminal `'linked'`
status back to `'down'`: port statuses are not monotone under arbitrary
interleavings of the port operations. -/
theorem C2_counterexample :
    dictGet? (runOps nodeA
        [PortOp.addPort "p", PortOp.addLink "p"]).port_status "p" =
      some PortStatus.linked ∧
    dictGet? (runOps nodeA [PortOp.addPort "p", PortOp.addLink "p",
        PortOp.addPort "p"]).port_status "p" = some PortStatus.down := by
  constructor <;> rfl

/-- C2 (amended): provided each operation in the interleaving respects its
precondition (`add_port` only registers a fresh or still-down name,
`add_link` only fires on a currently-down port), every port's status is
monotone: once a port reaches a terminal status (`'linked'` or `'up'`),
no later operation changes it, so it transitions out of `'down'` at most
once and never leaves a terminal state. -/
theorem C2_valid_runs_monotone (n : DockerNode) (l1 l2 : List PortOp)
    (p : String) (s : PortStatus)
    (hv : validFromB n (l1 ++ l2) = true) (ht : terminalB s = true)
    (hs : dictGet? (runOps n l1).port_status p = some s) :
    dictGet? (runOps n (l1 ++ l2)).port_status p = some s := by
  rw [runOps_append]
  exact runOps_preserves_terminal l2 (runOps n l1) p s
    (validFromB_append n l1 l2 hv) ht hs

/-- C2 witness: a concrete valid interleaving on `nodeA` (register p,
link p, then finalize): port `"p"` reaches `'linked'` and stays there. -/
theorem C2_witness :
    validFromB nodeA ([PortOp.addPort "p", PortOp.addLink "p"] ++
      [PortOp.createUnlinked]) = true ∧
    terminalB PortStatus.linked = true ∧
    dictGet? (runOps nodeA ([PortOp.addPort "p", PortOp.addLink "p"] ++
      [PortOp.createUnlinked])).port_status "p" = some PortStatus.linked :=
  ⟨by decide, rfl,
    C2_valid_runs_monotone nodeA [PortOp.addPort "p", PortOp.addLink "p"]
      [PortOp.createUnlinked] "p" PortStatus.linked (by decide) rfl
      (by decide)⟩

/-- Computation of `add_node` when the spec carries no `type` metadata:
the kind defaults to switch. -/
theorem add_node_none_eq (pf : DockerPlatform) (node : NmlNode)
    (cid : String) (pid : Nat) (h : node.metadata_type = none) :
    pf.add_node node cid pid = addNodeSwitchResult pf node cid pid := by
  simp [DockerPlatform.add_node, h, addNodeSwitchResult, addNodeSwitchNode,
    addNodeSwitchTrace]

/-- C6: `add_node` with no `type` metadata resolves the kind to switch and
registers the node under its identifier; with a `type` equal to neither
`"switch"` nor `"host"` it raises the code's `Unsupported type ...`
exception (the counterpart of the spec's `UnsupportedNodeKindError`) with
an empty effect trace — no container is created or started — and without
producing any new registry state. -/
theorem C6_add_node_kind_dispatch (pf : DockerPlatform) (node : NmlNode)
    (cid : String) (pid : Nat) :
    (node.metadata_type = none →
      ∃ pf2 enode fx,
        pf.add_node node cid pid = (Except.ok (pf2, enode), fx) ∧
        enode.kind = NodeKind.switch ∧
        dictGet? pf2.nmlnode_node_map node.identifier = some enode) ∧
    (∀ t, node.metadata_type = some t → t ≠ "switch" → t ≠ "host" →
      pf.add_node node cid pid =
        (Except.error ("Unsupported type " ++ t), [])) := by
  constructor
  · intro h
    refine ⟨addNodeSwitchPf pf node cid, addNodeSwitchNode node cid,
      addNodeSwitchTrace node cid pid, ?_, rfl, ?_⟩
    · rw [add_node_none_eq pf node cid pid h]
      rfl
    · exact dictGet_dictSet_self pf.nmlnode_node_map node.identifier
        (addNodeSwitchNode node cid)
  · intro t ht h1 h2
    simp [DockerPlatform.add_node, ht, h1, h2]

/-- C6 witness: on the empty platform, the spec with omitted kind yields a
switch node; the spec with kind `"router"` yields the failure with empty
trace. -/
theorem C6_witness :
    (∃ pf2 enode fx,
      DockerPlatform.add_node { nmlnode_node_map := [] } nmlDefault "c1" 7 =
        (Except.ok (pf2, enode), fx) ∧
      enode.kind = NodeKind.switch ∧
      dictGet? pf2.nmlnode_node_map nmlDefault.identifier = some enode) ∧
    DockerPlatform.add_node { nmlnode_node_map := [] } nmlRouter "c1" 7 =
      (Except.error ("Unsupported type " ++ "router"), []) :=
  ⟨(C6_add_node_kind_dispatch ⟨[]⟩ nmlDefault "c1" 7).1 rfl,
   (C6_add_node_kind_dispatch ⟨[]⟩ nmlRouter "c1" 7).2 "router" rfl
     (by decide) (by decide)⟩

/-- C7: every container-creation request issued by `add_node` — for any
node spec, either resolved kind — carries `privileged = true` and
`network_mode = 'none'`, so a created container never auto-joins a
default bridged network. -/
theorem C7_privileged_network_none (pf : DockerPlatform) (node : NmlNode)
    (cid : String) (pid : Nat) (req : CreateContainerRequest)
    (h : Effect.createContainer req ∈ (pf.add_node node cid pid).2) :
    req.privileged = true ∧ req.network_mode = "none" := by
  by_cases h1 : node.metadata_type.getD "switch" = "switch"
  · simp [DockerPlatform.add_node, h1, dockerNodeInit,
      DockerNode.start_effects, netns_commands] at h
    subst h
    exact ⟨rfl, rfl⟩
  · by_cases h2 : node.metadata_type.getD "switch" = "host"
    · simp [DockerPlatform.add_node, h1, h2, dockerNodeInit,
        DockerNode.start_effects, netns_commands] at h
      subst h
      exact ⟨rfl, rfl⟩
    · simp [DockerPlatform.add_node, h1, h2] at h

/-- C7 witness: the concrete request issued for `nmlDefault` on the empty
platform is in the trace and carries the two settings. -/
theorem C7_witness :
    Effect.createContainer reqDefault ∈
      (DockerPlatform.add_node { nmlnode_node_map := [] }
        nmlDefault "c1" 7).2 ∧
    (reqDefault.privileged = true ∧ reqDefault.network_mode = "none") :=
  ⟨by decide,
   C7_privileged_network_none ⟨[]⟩ nmlDefault "c1" 7 reqDefault (by decide)⟩

/-- C1 counterexample: the self-link request (("A","p"),("A","p")) — same
node, same port, port not freshly unbound after wiring — is not rejected
with `InvalidWireRequest`: `add_bilink` on `pfA` succeeds, emits the five
interface-creation commands, and changes the port's status from `'down'`
to `'linked'`. -/
theorem C1_counterexample :
    pfA.add_bilink ("A", "p") ("A", "p") =
      Except.ok ({ nmlnode_node_map := [("A", nodeA_linked_p)] },
        ip_link_commands "p" "p" "A" "A") := rfl

/-- C1 (amended): `add_bilink` performs no endpoint validation at all: for
any two endpoints whose node identifiers are registered — whatever the two
ports' statuses and even when the endpoints coincide — it succeeds (the
code has no `InvalidWireRequest` path), runs the five interface-creation
commands, and sets both endpoint ports to `'linked'`. -/
theorem C1_add_bilink_never_validates (pf : DockerPlatform)
    (a b : String × String) (na nb : DockerNode)
    (ha : dictGet? pf.nmlnode_node_map a.1 = some na)
    (hb : dictGet? pf.nmlnode_node_map b.1 = some nb) :
    ∃ pf2 : DockerPlatform,
      pf.add_bilink a b =
        Except.ok (pf2, ip_link_commands a.2 b.2 na.name nb.name) ∧
      (∃ na2, dictGet? pf2.nmlnode_node_map a.1 = some na2 ∧
        dictGet? na2.port_status a.2 = some PortStatus.linked) ∧
      (∃ nb2, dictGet? pf2.nmlnode_node_map b.1 = some nb2 ∧
        dictGet? nb2.port_status b.2 = some PortStatus.linked) := by
  by_cases hab : b.1 = a.1
  · have hb2 : nb = na := by
      rw [hab, ha] at hb
      exact (Option.some.inj hb).symm
    subst hb2
    have h1 : dictGet? (dictSet pf.nmlnode_node_map a.1 (nb.add_link a.2))
        b.1 = some (nb.add_link a.2) := by
      rw [hab]
      exact dictGet_dictSet_self _ _ _
    refine ⟨DockerPlatform.mk (dictSet
        (dictSet pf.nmlnode_node_map a.1 (nb.add_link a.2)) b.1
        ((nb.add_link a.2).add_link b.2)), ?_, ?_, ?_⟩
    · simp only [DockerPlatform.add_bilink, ha, hb, h1, Option.getD_some]
    · refine ⟨(nb.add_link a.2).add_link b.2, ?_, ?_⟩
      · rw [← hab]
        exact dictGet_dictSet_self _ _ _
      · by_cases hp : a.2 = b.2
        · rw [hp]
          simp [DockerNode.add_link, dictGet_dictSet_self]
        · have h2 := dictGet_dictSet_ne
            (dictSet (nb.port_status) a.2 PortStatus.linked) b.2 a.2
            PortStatus.linked hp
          simp [DockerNode.add_link, h2, dictGet_dictSet_self]
    · refine ⟨(nb.add_link a.2).add_link b.2, ?_, ?_⟩
      · exact dictGet_dictSet_self _ _ _
      · simp [DockerNode.add_link, dictGet_dictSet_self]
  · have h1 : dictGet? (dictSet pf.nmlnode_node_map a.1 (na.add_link a.2))
        b.1 = some nb := by
      rw [dictGet_dictSet_ne pf.nmlnode_node_map a.1 b.1 (na.add_link a.2) hab]
      exact hb
    refine ⟨DockerPlatform.mk (dictSet
        (dictSet pf.nmlnode_node_map a.1 (na.add_link a.2)) b.1
        (nb.add_link b.2)), ?_, ?_, ?_⟩
    · simp only [DockerPlatform.add_bilink, ha, hb, h1, Option.getD_some]
    · refine ⟨na.add_link a.2, ?_, ?_⟩
      · rw [dictGet_dictSet_ne _ b.1 a.1 _ (fun hh => hab hh.symm)]
        exact dictGet_dictSet_self _ _ _
      · simp [DockerNode.add_link, dictGet_dictSet_self]
    · refine ⟨nb.add_link b.2, ?_, ?_⟩
      · exact dictGet_dictSet_self _ _ _
      · simp [DockerNode.add_link, dictGet_dictSet_self]

/-- C1 witness: on the two-node platform `pfAB`, the wiring request
(("A","p"),("B","q")) satisfies the lookup hypotheses and yields the
amended conclusion. -/
theorem C1_witness :
    dictGet? pfAB.nmlnode_node_map "A" = some nodeA_down_p ∧
    dictGet? pfAB.nmlnode_node_map "B" = some nodeB_down_q ∧
    ∃ pf2 : DockerPlatform,
      pfAB.add_bilink ("A", "p") ("B", "q") =
        Except.ok (pf2,
          ip_link_commands "p" "q" nodeA_down_p.name nodeB_down_q.name) ∧
      (∃ na2, dictGet? pf2.nmlnode_node_map "A" = some na2 ∧
        dictGet? na2.port_status "p" = some PortStatus.linked) ∧
      (∃ nb2, dictGet? pf2.nmlnode_node_map "B" = some nb2 ∧
        dictGet? nb2.port_status "q" = some PortStatus.linked) :=
  ⟨rfl, rfl,
    C1_add_bilink_never_validates pfAB ("A", "p") ("B", "q")
      nodeA_down_p nodeB_down_q rfl rfl⟩

/-- C4 counterexample: stopping `nodeA` (container id `"c1"`) in a world
where the container is already gone fails at the very first sub-step: the
remaining three sub-steps are never attempted, no failure aggregation
happens, and the error propagates to the caller. -/
theorem C4_counterexample :
    nodeA.stop { containers := [], netns := ["A"] } =
      (Except.error "APIError: No such container: c1",
       [TeardownStep.stopContainer]) := rfl

/-- C4 (amended): `stop` runs its four sub-steps strictly in sequence with
no error handling: when the container is absent it aborts after the first
sub-step, never reaching the other three, and re-raises; when the
container exists but the netns entry is absent it fails at the fourth
sub-step and re-raises; only when both resources exist does it reach all
four sub-steps and succeed. No `TeardownError` aggregation exists in the
code. -/
theorem C4_stop_aborts_at_first_failure (n : DockerNode) (w : World) :
    (n.container_id ∉ w.containers →
      n.stop w =
        (Except.error ("APIError: No such container: " ++ n.container_id),
         [TeardownStep.stopContainer])) ∧
    (n.container_id ∈ w.containers → n.name ∈ w.netns →
      n.stop w =
        (Except.ok { containers := w.containers.erase n.container_id,
                     netns := w.netns.erase n.name },
         [TeardownStep.stopContainer, TeardownStep.waitContainer,
          TeardownStep.removeContainer, TeardownStep.removeNetns])) ∧
    (n.container_id ∈ w.containers → n.name ∉ w.netns →
      n.stop w =
        (Except.error ("CalledProcessError: ip netns del " ++ n.name),
         [TeardownStep.stopContainer, TeardownStep.waitContainer,
          TeardownStep.removeContainer, TeardownStep.removeNetns])) :=
  ⟨fun hc => stop_no_container n w hc,
   fun hc hn => stop_ok n w hc hn,
   fun hc hn => stop_no_netns n w hc hn⟩

/-- C4 witness: in `worldA` both resources exist, and `stop` of `nodeA`
reaches all four sub-steps and succeeds. -/
theorem C4_witness :
    nodeA.container_id ∈ worldA.containers ∧
    nodeA.name ∈ worldA.netns ∧
    nodeA.stop worldA =
      (Except.ok { containers := worldA.containers.erase nodeA.container_id,
                   netns := worldA.netns.erase nodeA.name },
       [TeardownStep.stopContainer, TeardownStep.waitContainer,
        TeardownStep.removeContainer, TeardownStep.removeNetns]) :=
  ⟨by decide, by decide,
    (C4_stop_aborts_at_first_failure nodeA worldA).2.1 (by decide)
      (by decide)⟩

/-- C5 counterexample: on the one-node topology `pfA`, the first `destroy`
succeeds and removes the container and the netns entry; a second `destroy`
is not a no-op: it fails with the container-runtime error for the
already-removed container. And removing an already-absent netns entry is
not treated as success: `stop` then fails with `CalledProcessError`. -/
theorem C5_counterexample :
    pfA.destroy worldA = Except.ok worldEmpty ∧
    pfA.destroy worldEmpty =
      Except.error "APIError: No such container: c1" ∧
    (nodeA_down_p.stop { containers := ["c1"], netns := [] }).1 =
      Except.error "CalledProcessError: ip netns del A" :=
  ⟨rfl, rfl, rfl⟩

/-- C5 (amended): `destroy` never clears the registry and `stop` has no
best-effort handling, so after a successful `destroy` of a one-node
topology, a second `destroy` re-invokes `stop` on the same node and
raises the container-runtime error for the already-removed container,
instead of being a no-op. -/
theorem C5_second_destroy_raises (k : String) (n : DockerNode) (w : World)
    (hdup : w.containers.Nodup)
    (hc : n.container_id ∈ w.containers) (hn : n.name ∈ w.netns) :
    DockerPlatform.destroy { nmlnode_node_map := [(k, n)] } w =
      Except.ok { containers := w.containers.erase n.container_id,
                  netns := w.netns.erase n.name } ∧
    DockerPlatform.destroy { nmlnode_node_map := [(k, n)] }
        { containers := w.containers.erase n.container_id,
          netns := w.netns.erase n.name } =
      Except.error ("APIError: No such container: " ++ n.container_id) := by
  constructor
  · simp [DockerPlatform.destroy, destroyAux, stop_ok n w hc hn]
  · have h2 : n.container_id ∉ w.containers.erase n.container_id :=
      hdup.not_mem_erase
    have hstop := stop_no_container n
      { containers := w.containers.erase n.container_id,
        netns := w.netns.erase n.name } h2
    simp [DockerPlatform.destroy, destroyAux, hstop]

/-- C5 witness: the hypotheses hold in `worldA` for `nodeA` and the two
`destroy` outcomes follow. -/
theorem C5_witness :
    worldA.containers.Nodup ∧
    nodeA.container_id ∈ worldA.containers ∧
    nodeA.name ∈ worldA.netns ∧
    (DockerPlatform.destroy { nmlnode_node_map := [("A", nodeA)] } worldA =
      Except.ok { containers := worldA.containers.erase nodeA.container_id,
                  netns := worldA.netns.erase nodeA.name } ∧
     DockerPlatform.destroy { nmlnode_node_map := [("A", nodeA)] }
        { containers := worldA.containers.erase nodeA.container_id,
          netns := worldA.netns.erase nodeA.name } =
      Except.error ("APIError: No such container: " ++ nodeA.container_id)) :=
  ⟨by decide, by decide, by decide,
    C5_second_destroy_raises "A" nodeA worldA (by decide) (by decide)
      (by decide)⟩

/-- C10: two `add_node` calls with the same identifier (kind omitted, so
switch): the second call silently overwrites the registry entry. The
first node's container was created and started (its start effect is in
the first call's trace), yet the registry afterwards holds only the
second node, and `destroy` stops and removes only the second container:
the first container survives teardown untouched. -/
theorem C10_duplicate_identifier_overwrites (n1 n2 : NmlNode)
    (cid1 cid2 : String) (pid1 pid2 : Nat) (w : World)
    (hid : n2.identifier = n1.identifier)
    (ht1 : n1.metadata_type = none) (ht2 : n2.metadata_type = none)
    (hcid : cid1 ≠ cid2) (hdup : w.containers.Nodup)
    (hc1 : cid1 ∈ w.containers) (hc2 : cid2 ∈ w.containers)
    (hn : n1.identifier ∈ w.netns) :
    ∃ pf1 e1 fx1 pf2 e2 fx2,
      DockerPlatform.add_node { nmlnode_node_map := [] } n1 cid1 pid1 =
        (Except.ok (pf1, e1), fx1) ∧
      DockerPlatform.add_node pf1 n2 cid2 pid2 =
        (Except.ok (pf2, e2), fx2) ∧
      Effect.startContainer cid1 ∈ fx1 ∧
      e1.container_id = cid1 ∧ e2.container_id = cid2 ∧
      pf2.nmlnode_node_map = [(n1.identifier, e2)] ∧
      ∃ w2, pf2.destroy w = Except.ok w2 ∧
        cid1 ∈ w2.containers ∧ cid2 ∉ w2.containers := by
  have h1 : DockerPlatform.add_node ⟨[]⟩ n1 cid1 pid1 =
      (Except.ok (addNodeSwitchPf ⟨[]⟩ n1 cid1, addNodeSwitchNode n1 cid1),
       addNodeSwitchTrace n1 cid1 pid1) := by
    rw [add_node_none_eq ⟨[]⟩ n1 cid1 pid1 ht1]
    rfl
  have h2 : DockerPlatform.add_node (addNodeSwitchPf ⟨[]⟩ n1 cid1)
      n2 cid2 pid2 =
      (Except.ok
        (DockerPlatform.mk [(n1.identifier, addNodeSwitchNode n2 cid2)],
         addNodeSwitchNode n2 cid2),
       addNodeSwitchTrace n2 cid2 pid2) := by
    rw [add_node_none_eq (addNodeSwitchPf ⟨[]⟩ n1 cid1) n2 cid2 pid2 ht2]
    simp [addNodeSwitchResult, addNodeSwitchPf, dictSet, hid]
  have h3 : Effect.startContainer cid1 ∈ addNodeSwitchTrace n1 cid1 pid1 := by
    simp [addNodeSwitchTrace, addNodeSwitchNode, dockerNodeInit,
      DockerNode.start_effects, netns_commands]
  have hcc : (addNodeSwitchNode n2 cid2).container_id ∈ w.containers := hc2
  have hnn : (addNodeSwitchNode n2 cid2).name ∈ w.netns := by
    show n2.identifier ∈ w.netns
    rw [hid]
    exact hn
  have h4 : DockerPlatform.destroy
      (DockerPlatform.mk [(n1.identifier, addNodeSwitchNode n2 cid2)]) w =
      Except.ok { containers := w.containers.erase cid2,
                  netns := w.netns.erase n2.identifier } := by
    have hstop := stop_ok (addNodeSwitchNode n2 cid2) w hcc hnn
    simp only [DockerPlatform.destroy, destroyAux, hstop]
    rfl
  exact ⟨addNodeSwitchPf ⟨[]⟩ n1 cid1, addNodeSwitchNode n1 cid1,
    addNodeSwitchTrace n1 cid1 pid1,
    DockerPlatform.mk [(n1.identifier, addNodeSwitchNode n2 cid2)],
    addNodeSwitchNode n2 cid2, addNodeSwitchTrace n2 cid2 pid2,
    h1, h2, h3, rfl, rfl, rfl,
    ⟨{ containers := w.containers.erase cid2,
       netns := w.netns.erase n2.identifier }, h4,
     (List.mem_erase_of_ne hcid).mpr hc1, hdup.not_mem_erase⟩⟩

/-- C10 witness: two `add_node` calls with identifier `"n1"` and container
ids `"c1"`, `"c2"` on the empty platform, in the world `worldDup`. -/
theorem C10_witness :
    nmlDefault.metadata_type = none ∧
    ("c1" : String) ≠ "c2" ∧ worldDup.containers.Nodup ∧
    (∃ pf1 e1 fx1 pf2 e2 fx2,
      DockerPlatform.add_node { nmlnode_node_map := [] } nmlDefault "c1" 3 =
        (Except.ok (pf1, e1), fx1) ∧
      DockerPlatform.add_node pf1 nmlDefault "c2" 4 =
        (Except.ok (pf2, e2), fx2) ∧
      Effect.startContainer "c1" ∈ fx1 ∧
      e1.container_id = "c1" ∧ e2.container_id = "c2" ∧
      pf2.nmlnode_node_map = [(nmlDefault.identifier, e2)] ∧
      ∃ w2, pf2.destroy worldDup = Except.ok w2 ∧
        "c1" ∈ w2.containers ∧ "c2" ∉ w2.containers) :=
  ⟨rfl, by decide, by decide,
    C10_duplicate_identifier_overwrites nmlDefault nmlDefault "c1" "c2" 3 4
      worldDup rfl rfl rfl (by decide) (by decide) (by decide) (by decide)
      (by decide)⟩
